import Mathlib

/-!
Verification of the node-hill server against its specification.

The development shallowly embeds the parts of the source that the checked
properties speak about:

* `src/class/Brick.ts` — touch detection (`_hitDetection`, `_detectTouching`),
  destruction (`Brick.destroy`), the `Player` position-update throttle
  (`Player._updatePositionForOthers`) and tool equipment (`Player.equipTool`);
* `src/class/SoundEmitter.ts` — `SoundEmitter.destroy`;
* `src/scripts/world/loadBrk.js` — the `.brk` map loader;
* the brick serializer module (`serialize` / `deserialize`);
* the per-class `netId` counters.

JavaScript numbers are modelled as rationals (`ℚ`); IEEE rounding and `NaN`
propagation are outside the model, and none of the checked properties and none
of the concrete inputs used below exercise them.  JavaScript `Set` objects are
modelled as duplicate-free lists in insertion order; event emission is modelled
by returning the list of emitted events.
-/

namespace NodeHill

/-- Modelled from the spec: `Vector3` (src/class/Vector3.ts is not part of the
source tree; §3 of the spec describes geometry as "three independent axis
values", and `equalsVector` / `fromVector` are componentwise equality / copy). -/
structure Vec3 where
  x : ℚ
  y : ℚ
  z : ℚ
deriving DecidableEq, Repr

/-! ## Touch detection (src/class/Brick.ts, `_hitDetection` / `_detectTouching`) -/

/-- The geometric state of a brick read by `_hitDetection`. -/
structure TouchBrick where
  position : Vec3
  scale : Vec3
deriving DecidableEq, Repr

/-- The state of one `Player` object as read by the touch detector.
`inGame` is membership in `Game.players`; the touching-set can retain
references to players that already left it. -/
structure PlayerObs where
  pid : Nat
  position : Vec3
  scale : Vec3
  alive : Bool
  destroyed : Bool
  inGame : Bool
deriving DecidableEq, Repr

/-- Events emitted by the touch detector (`this.emit("touching" | "touchingEnded", p)`). -/
inductive TouchEvent where
  | touching (pid : Nat)
  | touchingEnded (pid : Nat)
deriving DecidableEq, Repr

/-- `Math.abs` on rationals. -/
def qabs (q : ℚ) : ℚ := if q < 0 then -q else q

/-- The axis-aligned proximity test of `Brick._hitDetection`: half-extents of
the brick versus the actor's approximate box, every axis within the fixed
0.4 slop.  The code sets `touched = false` when `dist >= close + 0.4` on any
axis, so `touched` holds exactly when all three distances are strictly below. -/
def touchedCheck (b : TouchBrick) (p : PlayerObs) : Bool :=
  let scale0 := b.scale.x / 2
  let scale1 := b.scale.y / 2
  let scale2 := b.scale.z / 2
  let origin0 := b.position.x + scale0
  let origin1 := b.position.y + scale1
  let origin2 := b.position.z + scale2
  let size0 := p.scale.x
  let size1 := p.scale.y
  let size2 := 5 * p.scale.z / 2
  let center0 := p.position.x
  let center1 := p.position.y
  let center2 := p.position.z + size2
  decide (qabs (origin0 - center0) < size0 + scale0 + 2/5) &&
  decide (qabs (origin1 - center1) < size1 + scale1 + 2/5) &&
  decide (qabs (origin2 - center2) < size2 + scale2 + 2/5)

/-- `Set.add`: append if absent (JS sets preserve insertion order). -/
def setAdd (s : List Nat) (pid : Nat) : List Nat :=
  if pid ∈ s then s else s ++ [pid]

/-- The per-player body of the loop in `Brick._hitDetection`:
`if (touched && p.alive) { add; emit "touching" }` followed by
`if (set.has(p) && (!touched || !p.alive)) { delete; emit "touchingEnded" }`. -/
def hitStep (b : TouchBrick) (s : List Nat) (p : PlayerObs) : List Nat × List TouchEvent :=
  let touched := touchedCheck b p
  let res1 :=
    if touched && p.alive then (setAdd s p.pid, [TouchEvent.touching p.pid]) else (s, [])
  if decide (p.pid ∈ res1.1) && (!touched || !p.alive) then
    (res1.1.erase p.pid, res1.2 ++ [TouchEvent.touchingEnded p.pid])
  else res1

/-- The loop of `Brick._hitDetection` over the candidate players, in order. -/
def hitDetection (b : TouchBrick) (s : List Nat) : List PlayerObs → List Nat × List TouchEvent
  | [] => (s, [])
  | p :: ps =>
    let r1 := hitStep b s p
    let r2 := hitDetection b r1.1 ps
    (r2.1, r1.2 ++ r2.2)

/-- Resolution of a touching-set reference to the player object it points at. -/
def findPlayer (world : List PlayerObs) (pid : Nat) : Option PlayerObs :=
  world.find? (fun p => p.pid == pid)

/-- The prune loop at the top of the `_detectTouching` interval callback:
`for (const p of set) if (p.destroyed) set.delete(p)`.  A reference whose
object is unknown to `world` is kept (the loop only ever deletes). -/
def pruneDestroyed (world : List PlayerObs) (s : List Nat) : List Nat :=
  s.filter (fun pid =>
    match findPlayer world pid with
    | some p => !p.destroyed
    | none => true)

/-- One tick of the `_detectTouching` interval for a global brick: prune
destroyed references, then `if (!Game.players.length) return`, then run
`_hitDetection` over `Game.players` (for a local brick the same code runs
over the single bound player, the singleton instance of this definition). -/
def detectCycle (b : TouchBrick) (world : List PlayerObs) (s : List Nat) :
    List Nat × List TouchEvent :=
  let s1 := pruneDestroyed world s
  let gamePlayers := world.filter (fun p => p.inGame)
  if gamePlayers.isEmpty then (s1, [])
  else hitDetection b s1 gamePlayers

/-- Successive detector ticks, one world snapshot per tick. -/
def runCycles (b : TouchBrick) (s : List Nat) :
    List (List PlayerObs) → List Nat × List (List TouchEvent)
  | [] => (s, [])
  | w :: ws =>
    let r1 := detectCycle b w s
    let r2 := runCycles b r1.1 ws
    (r2.1, r1.2 :: r2.2)

/-- Occurrences of one event in an emission list. -/
def countEvent (e : TouchEvent) (l : List TouchEvent) : Nat :=
  l.countP (fun e' => e' = e)

/-! ## Position-update throttle (src/class/Brick.ts, `Player._updatePositionForOthers`) -/

/-- The player fields read and written by `_updatePositionForOthers`:
`_positionDeltaTime`, `position`, `rotation` and `cameraRotation`.
Times are milliseconds (`Date.now()`), modelled as integers. -/
structure PosState where
  positionDeltaTime : ℤ
  posX : ℚ
  posY : ℚ
  posZ : ℚ
  rotZ : ℚ
  rotX : ℚ
  camRotX : ℚ
deriving DecidableEq, Repr

/-- The `pos` array argument: indices 0..4 are x, y, z, yaw, camera pitch. -/
structure PosUpdate where
  p0 : ℚ
  p1 : ℚ
  p2 : ℚ
  p3 : ℚ
  p4 : ℚ
deriving DecidableEq, Repr

/-- The broadcast produced by `createPlayerIds(this, idBuffer).broadcastExcept([this])`:
the tag string and the player fields it would encode, read from the player
after the update was applied. -/
structure PosBroadcast where
  tags : List Char
  x : ℚ
  y : ℚ
  z : ℚ
  yaw : ℚ
deriving DecidableEq, Repr

/-- `if (pos[0] && this.position.x != pos[0]) { idBuffer += "A"; this.position.x = pos[0] }`.
JS truthiness of a number is `≠ 0`. -/
def tagA (pos : PosUpdate) (r : List Char × PosState) : List Char × PosState :=
  if pos.p0 ≠ 0 ∧ r.2.posX ≠ pos.p0 then (r.1 ++ ['A'], { r.2 with posX := pos.p0 }) else r

/-- `if (pos[1] && this.position.y != pos[1]) { idBuffer += "B"; this.position.y = pos[1] }`. -/
def tagB (pos : PosUpdate) (r : List Char × PosState) : List Char × PosState :=
  if pos.p1 ≠ 0 ∧ r.2.posY ≠ pos.p1 then (r.1 ++ ['B'], { r.2 with posY := pos.p1 }) else r

/-- `if (pos[2] && this.position.z != pos[2]) { idBuffer += "C"; this.position.z = pos[2] }`. -/
def tagC (pos : PosUpdate) (r : List Char × PosState) : List Char × PosState :=
  if pos.p2 ≠ 0 ∧ r.2.posZ ≠ pos.p2 then (r.1 ++ ['C'], { r.2 with posZ := pos.p2 }) else r

/-- `if (pos[3] && this.rotation.z != pos[3]) { idBuffer += "F"; this.rotation.z = pos[3] }`. -/
def tagF (pos : PosUpdate) (r : List Char × PosState) : List Char × PosState :=
  if pos.p3 ≠ 0 ∧ r.2.rotZ ≠ pos.p3 then (r.1 ++ ['F'], { r.2 with rotZ := pos.p3 }) else r

/-- `if (pos[4] && this.rotation.x != pos[4]) { this.cameraRotation.x = pos[4] }`:
the camera pitch is compared against `rotation.x`, stored into
`cameraRotation.x`, and never contributes a tag. -/
def tagPitch (pos : PosUpdate) (r : List Char × PosState) : List Char × PosState :=
  if pos.p4 ≠ 0 ∧ r.2.rotX ≠ pos.p4 then (r.1, { r.2 with camRotX := pos.p4 }) else r

/-- The five sequential field checks of `_updatePositionForOthers` in source
order, starting from an empty `idBuffer` and the freshly time-stamped state. -/
def runTags (s : PosState) (now : ℤ) (pos : PosUpdate) : List Char × PosState :=
  tagPitch pos (tagF pos (tagC pos (tagB pos
    (tagA pos ([], { s with positionDeltaTime := now })))))

/-- `Player._updatePositionForOthers(pos)` at time `now`: drop the update when
less than 50 ms passed since the last accepted one; otherwise stamp the time,
run the five sequential field checks building `idBuffer`, and broadcast exactly
when the tag buffer is nonempty. -/
def updatePositionForOthers (s : PosState) (now : ℤ) (pos : PosUpdate) :
    PosState × Option PosBroadcast :=
  if now - s.positionDeltaTime < 50 then (s, none)
  else if (runTags s now pos).1 ≠ [] then
    ((runTags s now pos).2,
      some ⟨(runTags s now pos).1, (runTags s now pos).2.posX, (runTags s now pos).2.posY,
        (runTags s now pos).2.posZ, (runTags s now pos).2.rotZ⟩)
  else ((runTags s now pos).2, none)

/-- A session's run over a list of timestamped updates, collecting the
broadcasts that actually go out with their times. -/
def runUpdates (s : PosState) : List (ℤ × PosUpdate) → PosState × List (ℤ × PosBroadcast)
  | [] => (s, [])
  | (t, u) :: rest =>
    let r1 := updatePositionForOthers s t u
    let r2 := runUpdates r1.1 rest
    match r1.2 with
    | some m => (r2.1, (t, m) :: r2.2)
    | none => (r2.1, r2.2)

/-- The tag list carried by an optional broadcast (none ⇒ nothing was encoded). -/
def broadcastTags : Option PosBroadcast → List Char
  | some m => m.tags
  | none => []

/-! ## Tool equipment (src/class/Brick.ts, `Player.equipTool` / `unequipTool` / `addTool`) -/

/-- The player's tool fields: `inventory` and `toolEquipped` (a nullable
reference, so at most one tool is equipped by construction).  Tools are
identified by their ids. -/
structure ToolState where
  inventory : List Nat
  toolEquipped : Option Nat
deriving DecidableEq, Repr

/-- Events emitted on the tools (`tool.emit("equipped" | "unequipped", this)`),
in emission order. -/
inductive ToolEvent where
  | equipped (tid : Nat)
  | unequipped (tid : Nat)
deriving DecidableEq, Repr

/-- `Player.unequipTool(tool)`: no-op unless `tool` is the equipped one;
otherwise clear `toolEquipped` and emit `unequipped`. -/
def unequipTool (s : ToolState) (t : Nat) : ToolState × List ToolEvent :=
  if s.toolEquipped ≠ some t then (s, [])
  else ({ s with toolEquipped := none }, [ToolEvent.unequipped t])

/-- `Player.equipTool(tool)`: add the tool to the inventory when absent
(`addTool` never rejects here, since it is only called on an absent tool);
unequip when it is the currently equipped tool; otherwise unequip the current
tool, equip the new one and emit `equipped`. -/
def equipTool (s : ToolState) (t : Nat) : ToolState × List ToolEvent :=
  let s := if t ∈ s.inventory then s else { s with inventory := s.inventory ++ [t] }
  let currentTool := s.toolEquipped
  if currentTool = some t then unequipTool s t
  else
    let r1 := match currentTool with
      | some c => unequipTool s c
      | none => (s, [])
    ({ r1.1 with toolEquipped := some t }, r1.2 ++ [ToolEvent.equipped t])

/-! ## Destruction (src/class/Brick.ts `Brick.destroy`, src/class/SoundEmitter.ts `SoundEmitter.destroy`) -/

/-- The fields of a `Brick` that its `destroy` method touches.  `steps` are the
ids of the `setInterval` loops registered through `Brick.setInterval`;
`hitMonitorActive` stands for the `_hitMonitor` interval. -/
structure DestroyableBrick where
  destroyed : Bool
  netId : Option Nat
  isLocal : Bool
  steps : List Nat
  hitMonitorActive : Bool
deriving DecidableEq, Repr

/-- The fields of a `SoundEmitter` that its `destroy` method touches. -/
structure DestroyableSound where
  destroyed : Bool
  netId : Option Nat
  steps : List Nat
deriving DecidableEq, Repr

/-- The owning collections: `Game.world.bricks`, the bound player's
`localBricks` (for a local brick) and `Game.world.sounds`, each by `netId`
(net ids stand for the object references held by the arrays). -/
structure WorldCollections where
  bricks : List Nat
  localBricks : List Nat
  sounds : List Nat
deriving DecidableEq, Repr

/-- `array.splice(array.indexOf(x), 1)` guarded by `indexOf !== -1`:
remove the first occurrence, if any. -/
def spliceOut (l : List Nat) (nid : Option Nat) : List Nat :=
  match nid with
  | some n => l.erase n
  | none => l

/-- `Brick.destroy()`: reject a second call; otherwise `_cleanup()` (clear the
hit monitor and every `_steps` interval — returned as the cancelled-timer
list), remove the brick from `Game.world.bricks` (global) or from the bound
player's `localBricks` (local), null out `socket` and `netId`, reset the
touching-set and mark destroyed. -/
def brickDestroy (b : DestroyableBrick) (w : WorldCollections) :
    Except String (DestroyableBrick × WorldCollections × List Nat) :=
  if b.destroyed then Except.error "Brick has already been destroyed."
  else
    let cancelled := b.steps
    let w :=
      if b.isLocal then { w with localBricks := spliceOut w.localBricks b.netId }
      else { w with bricks := spliceOut w.bricks b.netId }
    Except.ok
      ({ b with destroyed := true, netId := none, isLocal := false, hitMonitorActive := false },
        w, cancelled)

/-- `SoundEmitter.destroy()`: reject a second call; otherwise clear every
`_steps` interval, remove the emitter from `Game.world.sounds`, null out
`netId` and mark destroyed. -/
def soundDestroy (e : DestroyableSound) (w : WorldCollections) :
    Except String (DestroyableSound × WorldCollections × List Nat) :=
  if e.destroyed then Except.error "Sound emitter has already been destroyed."
  else
    let cancelled := e.steps
    let w := { w with sounds := spliceOut w.sounds e.netId }
    Except.ok ({ e with destroyed := true, netId := none }, w, cancelled)

/-! ## Net-id assignment (static counters `Brick.brickId`, `Player.playerId`,
`SoundEmitter.soundEmitterId`) -/

/-- `Brick.brickId += 1; this.netId = Brick.brickId`: the new counter value and
the net id assigned to the freshly constructed brick. -/
def brickNetIdStep (brickId : Nat) : Nat × Nat := (brickId + 1, brickId + 1)

/-- `Player.playerId += 1; this.netId = Player.playerId`. -/
def playerNetIdStep (playerId : Nat) : Nat × Nat := (playerId + 1, playerId + 1)

/-- `SoundEmitter.soundEmitterId += 1; this.netId = SoundEmitter.soundEmitterId`. -/
def soundEmitterNetIdStep (soundEmitterId : Nat) : Nat × Nat := (soundEmitterId + 1, soundEmitterId + 1)

/-- The net ids assigned by `n` successive constructor calls of one class,
starting from counter value `c0`. -/
def assignedNetIds (step : Nat → Nat × Nat) (c0 : Nat) : Nat → List Nat
  | 0 => []
  | n + 1 =>
    let r := step c0
    r.2 :: assignedNetIds step r.1 n

/-! ## Brick content fields (src/class/Brick.ts constructor defaults)

The content fields of a `Brick` that the serializer and the map loader write.
The structure defaults are the values a bare `new Brick()` carries: `name`,
`model` and `shape` are left `undefined` by the constructor, modelled as `""`
and `0`. -/

structure Brick where
  position : Vec3 := ⟨0, 0, 0⟩
  scale : Vec3 := ⟨1, 1, 1⟩
  color : String := "#C0C0C0"
  visibility : ℚ := 1
  collision : Bool := true
  name : String := ""
  rotation : Vec3 := ⟨0, 0, 0⟩
  model : ℚ := 0
  lightEnabled : Bool := false
  lightColor : String := "#000000"
  lightRange : ℚ := 5
  clickable : Bool := false
  clickDistance : ℚ := 50
  shape : String := ""
deriving DecidableEq, Repr

/-- `const DEFAULT_BRICK = new Brick()` (serializer module). -/
def DEFAULT_BRICK : Brick := {}

/-! ## Brick serializer (`util/serializer`: `serialize` / `deserialize`)

The JSON + deflate layers are inverse byte codecs and are not modelled; the
model works on the per-brick partial record (`data`) the module builds, where
a missing JSON key is `none`. -/

/-- The partial record `serialize` emits for one brick. -/
structure SerializedBrick where
  position : Option Vec3 := none
  scale : Option Vec3 := none
  color : Option String := none
  visibility : Option ℚ := none
  collision : Option Bool := none
  name : Option String := none
  rotation : Option Vec3 := none
  model : Option ℚ := none
  lightEnabled : Option Bool := none
  lightColor : Option String := none
  lightRange : Option ℚ := none
  clickable : Option Bool := none
  clickDistance : Option ℚ := none
deriving DecidableEq, Repr

/-- The per-brick body of `serialize`: a field is written only under the
listed condition (difference from `DEFAULT_BRICK`, truthiness, `visibility
< 1`, or the enabling flag for the light/clickable groups). -/
def serializeBrick (b : Brick) : SerializedBrick :=
  { position := if b.position = DEFAULT_BRICK.position then none else some b.position
    scale := if b.scale = DEFAULT_BRICK.scale then none else some b.scale
    color := if b.color = DEFAULT_BRICK.color then none else some b.color
    visibility := if b.visibility < 1 then some b.visibility else none
    collision := if b.collision then none else some false
    name := if b.name = "" then none else some b.name
    rotation := if b.rotation = DEFAULT_BRICK.rotation then none else some b.rotation
    model := if b.model = 0 then none else some b.model
    lightEnabled := if b.lightEnabled then some true else none
    lightColor := if b.lightEnabled then some b.lightColor else none
    lightRange := if b.lightEnabled then some b.lightRange else none
    clickable := if b.clickable then some true else none
    clickDistance := if b.clickable then some b.clickDistance else none }

/-- The per-record body of `deserialize`: `new Brick(position, scale, color)`
followed by assignment of every present key (arrays become `Vector3`s); a
missing key keeps the constructor default. -/
def deserializeBrick (r : SerializedBrick) : Brick :=
  { position := r.position.getD ⟨0, 0, 0⟩
    scale := r.scale.getD ⟨1, 1, 1⟩
    color := r.color.getD "#C0C0C0"
    visibility := r.visibility.getD 1
    collision := r.collision.getD true
    name := r.name.getD ""
    rotation := r.rotation.getD ⟨0, 0, 0⟩
    model := r.model.getD 0
    lightEnabled := r.lightEnabled.getD false
    lightColor := r.lightColor.getD "#000000"
    lightRange := r.lightRange.getD 5
    clickable := r.clickable.getD false
    clickDistance := r.clickDistance.getD 50 }

/-- `serialize` over the brick list. -/
def serialize (bricks : List Brick) : List SerializedBrick :=
  bricks.map serializeBrick

/-- `deserialize` over the record list. -/
def deserialize (records : List SerializedBrick) : List Brick :=
  records.map deserializeBrick

/-! ## Map loader (src/scripts/world/loadBrk.js)

String helpers mirror the JavaScript primitives the loader uses
(`String.split` with a one-character separator, `String.trim`,
`String.replace` of a first occurrence, `Array.join(" ")`, `Number(...)`). -/

/-- `String.split(sep)` on the character list: consecutive separators and
edge separators yield empty fields, and the result is never empty. -/
def jsSplitAux (sep : Char) : List Char → List Char → List (List Char)
  | [], acc => [acc.reverse]
  | c :: cs, acc =>
    if c = sep then acc.reverse :: jsSplitAux sep cs []
    else jsSplitAux sep cs (c :: acc)

/-- JavaScript `s.split(sep)` for a one-character separator. -/
def jsSplit (sep : Char) (s : String) : List String :=
  (jsSplitAux sep s.toList []).map List.asString

/-- The whitespace characters relevant to `.brk` lines. -/
def isJsSpace (c : Char) : Bool :=
  c = ' ' || c = '\t' || c = '\r' || c = '\n'

/-- JavaScript `s.trim()`. -/
def jsTrim (s : String) : String :=
  (((s.toList.dropWhile isJsSpace).reverse.dropWhile isJsSpace).reverse).asString

/-- JavaScript `s.replace("+", "")`: remove the first `+`, if any. -/
def replaceFirstPlus (s : String) : String :=
  (go s.toList).asString
where
  go : List Char → List Char
    | [] => []
    | c :: cs => if c = '+' then cs else c :: go cs

/-- Digit run to a natural number; `none` on a non-digit.  The empty run is 0,
which also renders JavaScript `Number("") = 0`. -/
def parseDigits : List Char → Nat → Option Nat
  | [], acc => some acc
  | c :: cs, acc =>
    if c.isDigit then parseDigits cs (acc * 10 + (c.toNat - 48)) else none

/-- JavaScript `Number(string)` on the decimal literals the loader feeds it
(the character-list worker): optional sign, digits, optional fraction.  `NaN`
(from malformed input) is not modelled; malformed fields fall back to 0 and
are not exercised by any of the checked properties. -/
def jsNumberList (l0 : List Char) : ℚ :=
  let l := ((l0.dropWhile isJsSpace).reverse.dropWhile isJsSpace).reverse
  let signAndDigits : ℚ × List Char :=
    match l with
    | '-' :: rest => (-1, rest)
    | '+' :: rest => (1, rest)
    | _ => (1, l)
  match jsSplitAux '.' signAndDigits.2 [] with
  | [ip] =>
    match parseDigits ip 0 with
    | some n => signAndDigits.1 * n
    | none => 0
  | [ip, fp] =>
    match parseDigits ip 0, parseDigits fp 0 with
    | some n, some f => signAndDigits.1 * (n + (f : ℚ) / 10 ^ fp.length)
    | _, _ => 0
  | _ => 0

/-- JavaScript `Number(string)`. -/
def jsNumber (s : String) : ℚ :=
  jsNumberList s.toList

/-- JavaScript `%` (remainder truncated toward zero) on numbers. -/
def jsMod (a b : ℚ) : ℚ :=
  a - b * ((if a / b < 0 then -((-(a / b)).floor) else (a / b).floor) : ℤ)

/-- Modelled from the spec: `convertRGB` of `util/color/colorModule` (not under
src; §4.6 describes the environment and brick color triples as "space-separated
channel triples converted from one color space to hex", the brick line comment
reads "Convert to OpenGL colour format"): 0–255 channels to 0–1 values. -/
def convertRGB (r g b : String) : ℚ × ℚ × ℚ :=
  (jsNumber r / 255, jsNumber g / 255, jsNumber b / 255)

/-- `Math.round`: floor of `q + 1/2`, computed on the reduced fraction. -/
def jsRound (q : ℚ) : ℤ :=
  Int.fdiv (2 * q.num + q.den) (2 * q.den)

/-- Two lowercase hex digits for one clamped 0–255 channel. -/
def hex2 (i : ℤ) : String :=
  let n := min i.toNat 255
  let ds := Nat.toDigits 16 n
  (if ds.length = 1 then '0' :: ds else ds).asString

/-- Modelled from the spec: `rgbToHex` of `util/color/colorModule` (not under
src): renders three 0–1 channels as a `#rrggbb` string. -/
def rgbToHex (r g b : ℚ) : String :=
  "#" ++ hex2 (jsRound (r * 255)) ++ hex2 (jsRound (g * 255)) ++ hex2 (jsRound (b * 255))

/-- A `>TEAM` entry: the pushed name, later replaced by a concrete team when a
`COLOR` line attaches a color (`teams[teams.length - 1] = new Team(...)`). -/
inductive TeamRec where
  | pendingName (name : String)
  | team (name : String) (color : String)
deriving DecidableEq, Repr

/-- The `environment` object the loader fills from lines 3–7. -/
structure BrkEnv where
  ambient : Option String := none
  baseColor : Option String := none
  skyColor : Option String := none
  baseSize : Option ℚ := none
  sunIntensity : Option ℚ := none
deriving DecidableEq, Repr

/-- The loader's loop state.  `currentBrick` is the index of the brick the
attribute lines target (`-1`, modelled `none`, before the first brick line);
`spawns` holds indices into `bricks`, standing for the pushed references. -/
structure BrkState where
  totalLines : Nat := 0
  bricks : List Brick := []
  spawns : List Nat := []
  tools : List String := []
  teams : List TeamRec := []
  env : BrkEnv := {}
  currentBrick : Option Nat := none
  scriptWarning : Bool := false
deriving DecidableEq, Repr

/-- What `loadBrk` resolves to. -/
structure MapData where
  teams : List TeamRec
  tools : List String
  bricks : List Brick
  environment : BrkEnv
  spawns : List Nat
deriving DecidableEq, Repr

/-- `bricks[currentBrick]` mutation; `bricks[-1].field = v` throws in
JavaScript and rejects the whole load, hence `none`. -/
def modifyCurrent (st : BrkState) (f : Brick → Brick) : Option BrkState :=
  match st.currentBrick with
  | none => none
  | some i =>
    match st.bricks.get? i with
    | none => none
    | some b => some { st with bricks := st.bricks.set i (f b) }

/-- A 10-field brick line: positions, scales, a 0–255 color triple converted
to hex, and the transparency written to `visibility`. -/
def brkAddBrick (st : BrkState) (DATA : List String) : BrkState :=
  let RGB := convertRGB (DATA.getD 6 "") (DATA.getD 7 "") (DATA.getD 8 "")
  let newBrick : Brick :=
    { position := ⟨jsNumber (DATA.getD 0 ""), jsNumber (DATA.getD 1 ""), jsNumber (DATA.getD 2 "")⟩
      scale := ⟨jsNumber (DATA.getD 3 ""), jsNumber (DATA.getD 4 ""), jsNumber (DATA.getD 5 "")⟩
      color := rgbToHex RGB.1 RGB.2.1 RGB.2.2
      visibility := jsNumber (DATA.getD 9 "") }
  { st with bricks := st.bricks ++ [newBrick], currentBrick := some st.bricks.length }

/-- The name a `COLOR` line reads out of the last team entry (JavaScript would
pass the previous entry itself to `new Team`; only its name is observable in
the result). -/
def teamRecName : TeamRec → String
  | .pendingName n => n
  | .team n _ => n

/-- The switch over attribute keywords and the trailing brick-line /
`>TEAM` / `>SLOT` handling, for every line past the fixed-position header and
environment lines.  A `COLOR` line with no team yet writes array index `-1` in
JavaScript, leaving the visible team list unchanged. -/
def brkGeneric (st : BrkState) (line : String) : Option BrkState :=
  let DATA := jsSplit ' ' line
  let ATTRIBUTE := replaceFirstPlus (DATA.headD "")
  let VALUE := String.intercalate " " (DATA.drop 1)
  if ATTRIBUTE = "NAME" then modifyCurrent st (fun b => { b with name := VALUE })
  else if ATTRIBUTE = "ROT" then
    let rot := (jsSplit ' ' VALUE).map jsNumber
    if rot.length = 1 then
      modifyCurrent st (fun b =>
        { b with rotation :=
            ⟨0, 0, if jsMod (rot.headD 0) 90 ≠ 0 then rot.headD 0 + 90 else 0⟩ })
    else
      modifyCurrent st (fun b =>
        { b with rotation := ⟨rot.getD 0 0, rot.getD 1 0, rot.getD 2 0⟩ })
  else if ATTRIBUTE = "SHAPE" then
    match modifyCurrent st (fun b => { b with shape := VALUE }) with
    | none => none
    | some st1 =>
      if VALUE = "spawnpoint" then
        match st1.currentBrick with
        | some i => some { st1 with spawns := st1.spawns ++ [i] }
        | none => none
      else some st1
  else if ATTRIBUTE = "MODEL" then modifyCurrent st (fun b => { b with model := jsNumber VALUE })
  else if ATTRIBUTE = "NOCOLLISION" then modifyCurrent st (fun b => { b with collision := false })
  else if ATTRIBUTE = "COLOR" then
    let colors := jsSplit ' ' VALUE
    let c := convertRGB (colors.getD 0 "") (colors.getD 1 "") (colors.getD 2 "")
    let hex := rgbToHex c.1 c.2.1 c.2.2
    match st.teams.getLast? with
    | some last => some { st with teams := st.teams.dropLast ++ [TeamRec.team (teamRecName last) hex] }
    | none => some st
  else if ATTRIBUTE = "LIGHT" then
    let colors := jsSplit ' ' VALUE
    let lightRange := jsNumber (colors.getD 3 "")
    let RGB := convertRGB (colors.getD 0 "") (colors.getD 1 "") (colors.getD 2 "")
    modifyCurrent st (fun b =>
      { b with lightEnabled := true, lightRange := lightRange,
               lightColor := rgbToHex RGB.1 RGB.2.1 RGB.2.2 })
  else if ATTRIBUTE = "SCRIPT" then some { st with scriptWarning := true }
  else
    let st := if DATA.length = 10 then brkAddBrick st DATA else st
    let st := if DATA.headD "" = ">TEAM" then
        { st with teams := st.teams ++ [TeamRec.pendingName VALUE] } else st
    let st := if DATA.headD "" = ">SLOT" then
        { st with tools := st.tools ++ [VALUE] } else st
    some st

/-- The fixed version signature the first line must equal. -/
def brkSignature : String := "B R I C K  W O R K S H O P  V0.2.0.0"

/-- The per-line body of the loader loop: bump `totalLines`, trim, handle the
header line (mismatch is fatal: `process.exit`, modelled `none`) and the five
positional environment lines, and defer everything else to `brkGeneric`. -/
def processLine (st : BrkState) (rawLine : String) : Option BrkState :=
  let st := { st with totalLines := st.totalLines + 1 }
  let line := jsTrim rawLine
  if st.totalLines = 1 then
    if line = brkSignature then some st else none
  else if st.totalLines = 3 then
    let glColor := jsSplit ' ' line
    let RGB := convertRGB (glColor.getD 0 "") (glColor.getD 1 "") (glColor.getD 2 "")
    some { st with env := { st.env with ambient := some (rgbToHex RGB.2.2 RGB.2.1 RGB.1) } }
  else if st.totalLines = 4 then
    let glColor := jsSplit ' ' line
    let RGB := convertRGB (glColor.getD 0 "") (glColor.getD 1 "") (glColor.getD 2 "")
    some { st with env := { st.env with baseColor := some (rgbToHex RGB.2.2 RGB.2.1 RGB.1) } }
  else if st.totalLines = 5 then
    let glColor := jsSplit ' ' line
    let RGB := convertRGB (glColor.getD 0 "") (glColor.getD 1 "") (glColor.getD 2 "")
    some { st with env := { st.env with skyColor := some (rgbToHex RGB.1 RGB.2.1 RGB.2.2) } }
  else if st.totalLines = 6 then
    some { st with env := { st.env with baseSize := some (jsNumber line) } }
  else if st.totalLines = 7 then
    some { st with env := { st.env with sunIntensity := some (jsNumber line) } }
  else brkGeneric st line

/-- The loader loop over the lines of the file. -/
def loadBrkLines (st : BrkState) : List String → Option MapData
  | [] => some ⟨st.teams, st.tools, st.bricks, st.env, st.spawns⟩
  | line :: rest =>
    match processLine st line with
    | none => none
    | some st1 => loadBrkLines st1 rest

/-- `loadBrk(map)` on the file contents: split into lines and run the loop
(`environment.weather` is copied from the live game object, not the file, and
is not part of the model). -/
def loadBrk (file : String) : Option MapData :=
  loadBrkLines {} (jsSplit '\n' file)

/-! ## Supporting lemmas: the touch detector -/

lemma countEvent_nil (e : TouchEvent) : countEvent e [] = 0 := rfl

lemma countEvent_append (e : TouchEvent) (l1 l2 : List TouchEvent) :
    countEvent e (l1 ++ l2) = countEvent e l1 + countEvent e l2 := by
  simp [countEvent, List.countP_append]

lemma countEvent_single (e e' : TouchEvent) :
    countEvent e [e'] = if e' = e then 1 else 0 := by
  simp [countEvent, List.countP_cons]

lemma mem_setAdd_self (s : List Nat) (x : Nat) : x ∈ setAdd s x := by
  by_cases h : x ∈ s <;> simp [setAdd, h]

lemma setAdd_nodup (s : List Nat) (x : Nat) (hs : s.Nodup) : (setAdd s x).Nodup := by
  by_cases h : x ∈ s
  · simpa [setAdd, h] using hs
  · simp only [setAdd, if_neg h]
    exact hs.append (List.nodup_singleton _) (List.disjoint_singleton.2 h)

lemma hitStep_eq_pos (b : TouchBrick) (s : List Nat) (p : PlayerObs)
    (h : (touchedCheck b p && p.alive) = true) :
    hitStep b s p = (setAdd s p.pid, [TouchEvent.touching p.pid]) := by
  cases ht : touchedCheck b p <;> cases ha : p.alive <;>
    simp_all [hitStep, setAdd]

lemma hitStep_eq_neg (b : TouchBrick) (s : List Nat) (p : PlayerObs)
    (h : (touchedCheck b p && p.alive) = false) :
    hitStep b s p =
      if p.pid ∈ s then (s.erase p.pid, [TouchEvent.touchingEnded p.pid]) else (s, []) := by
  cases ht : touchedCheck b p <;> cases ha : p.alive <;>
    by_cases hm : p.pid ∈ s <;> simp_all [hitStep, setAdd]

lemma mem_hitStep_of_ne (b : TouchBrick) (s : List Nat) (p : PlayerObs) (x : Nat)
    (hx : x ≠ p.pid) : x ∈ (hitStep b s p).1 ↔ x ∈ s := by
  cases h : (touchedCheck b p && p.alive)
  · rw [hitStep_eq_neg b s p h]
    by_cases hm : p.pid ∈ s <;> simp [hm, List.mem_erase_of_ne hx]
  · rw [hitStep_eq_pos b s p h]
    simp only [setAdd]
    by_cases hm : p.pid ∈ s <;> simp [hm, hx]

lemma hitStep_events_other (b : TouchBrick) (s : List Nat) (p : PlayerObs) (x : Nat)
    (hx : x ≠ p.pid) :
    countEvent (TouchEvent.touching x) (hitStep b s p).2 = 0 ∧
    countEvent (TouchEvent.touchingEnded x) (hitStep b s p).2 = 0 := by
  cases h : (touchedCheck b p && p.alive)
  · rw [hitStep_eq_neg b s p h]
    by_cases hm : p.pid ∈ s <;> simp [hm, countEvent, hx, Ne.symm hx]
  · rw [hitStep_eq_pos b s p h]
    simp [countEvent, hx, Ne.symm hx]

lemma hitStep_nodup (b : TouchBrick) (s : List Nat) (p : PlayerObs) (hs : s.Nodup) :
    (hitStep b s p).1.Nodup := by
  cases h : (touchedCheck b p && p.alive)
  · rw [hitStep_eq_neg b s p h]
    by_cases hm : p.pid ∈ s <;> simp [hm, hs, List.Nodup.erase]
  · rw [hitStep_eq_pos b s p h]
    exact setAdd_nodup s p.pid hs

lemma hitDetection_notin (b : TouchBrick) (ps : List PlayerObs) (x : Nat)
    (h : x ∉ ps.map PlayerObs.pid) (s : List Nat) :
    countEvent (TouchEvent.touching x) (hitDetection b s ps).2 = 0 ∧
    countEvent (TouchEvent.touchingEnded x) (hitDetection b s ps).2 = 0 ∧
    (x ∈ (hitDetection b s ps).1 ↔ x ∈ s) := by
  induction ps generalizing s with
  | nil => simp [hitDetection, countEvent]
  | cons q ps ih =>
    simp only [List.map_cons, List.mem_cons, not_or] at h
    obtain ⟨hq, hps⟩ := h
    obtain ⟨ih1, ih2, ih3⟩ := ih hps (hitStep b s q).1
    obtain ⟨e1, e2⟩ := hitStep_events_other b s q x hq
    simp only [hitDetection, countEvent_append, ih1, ih2, e1, e2, ih3,
      mem_hitStep_of_ne b s q x hq]
    simp

lemma hitDetection_main (b : TouchBrick) (ps : List PlayerObs) (p : PlayerObs)
    (hnd : (ps.map PlayerObs.pid).Nodup) (hp : p ∈ ps) (s : List Nat) (hs : s.Nodup) :
    countEvent (TouchEvent.touching p.pid) (hitDetection b s ps).2 =
      (if (touchedCheck b p && p.alive) = true then 1 else 0) ∧
    countEvent (TouchEvent.touchingEnded p.pid) (hitDetection b s ps).2 =
      (if p.pid ∈ s ∧ (touchedCheck b p && p.alive) = false then 1 else 0) ∧
    (p.pid ∈ (hitDetection b s ps).1 ↔ (touchedCheck b p && p.alive) = true) := by
  induction ps generalizing s with
  | nil => cases hp
  | cons q ps ih =>
    simp only [List.map_cons, List.nodup_cons] at hnd
    obtain ⟨hq, hnd'⟩ := hnd
    rcases List.mem_cons.1 hp with rfl | hp'
    · -- `p` is the head: its own step fires; the tail never mentions `p.pid`
      obtain ⟨r1, r2, r3⟩ := hitDetection_notin b ps p.pid hq (hitStep b s p).1
      cases h : (touchedCheck b p && p.alive) with
      | true =>
        rw [hitStep_eq_pos b s p h] at r1 r2 r3
        simp only [hitDetection, hitStep_eq_pos b s p h, countEvent_append,
          countEvent_single, r1, r2, r3]
        refine ⟨by simp, by simp [h], by simp [mem_setAdd_self]⟩
      | false =>
        rw [hitStep_eq_neg b s p h] at r1 r2 r3
        by_cases hm : p.pid ∈ s
        · rw [if_pos hm] at r1 r2 r3
          simp only [hitDetection, hitStep_eq_neg b s p h, if_pos hm, countEvent_append,
            countEvent_single, r1, r2, r3]
          refine ⟨by simp, by simp [hm, h], by simp [h, hs.not_mem_erase]⟩
        · rw [if_neg hm] at r1 r2 r3
          simp only [hitDetection, hitStep_eq_neg b s p h, if_neg hm, countEvent_append,
            countEvent_nil, r1, r2, r3]
          refine ⟨by simp, by simp [hm], by simp [hm, h]⟩
    · -- `p` is in the tail: the head's step never mentions `p.pid`
      have hppid : p.pid ≠ q.pid := by
        intro hcon
        exact hq (hcon ▸ List.mem_map_of_mem PlayerObs.pid hp')
      obtain ⟨e1, e2⟩ := hitStep_events_other b s q p.pid hppid
      have hmem := mem_hitStep_of_ne b s q p.pid hppid
      obtain ⟨ih1, ih2, ih3⟩ := ih hnd' hp' (hitStep b s q).1 (hitStep_nodup b s q hs)
      rw [hitDetection]
      simp only [countEvent_append, e1, e2, ih1, ih2, ih3, hmem]
      simp

lemma filtered_pid_nodup (world : List PlayerObs) (hw : (world.map PlayerObs.pid).Nodup) :
    ((world.filter (fun q => q.inGame)).map PlayerObs.pid).Nodup :=
  hw.sublist ((List.filter_sublist world).map PlayerObs.pid)

lemma pruneDestroyed_nodup (world : List PlayerObs) (s : List Nat) (hs : s.Nodup) :
    (pruneDestroyed world s).Nodup :=
  hs.filter _

lemma findPlayer_eq (world : List PlayerObs) (p : PlayerObs)
    (hw : (world.map PlayerObs.pid).Nodup) (hp : p ∈ world) :
    findPlayer world p.pid = some p := by
  induction world with
  | nil => cases hp
  | cons q ws ih =>
    simp only [List.map_cons, List.nodup_cons] at hw
    rcases List.mem_cons.1 hp with rfl | hp'
    · simp [findPlayer, List.find?]
    · have hne : q.pid ≠ p.pid := by
        intro hcon
        exact hw.1 (hcon ▸ List.mem_map_of_mem PlayerObs.pid hp')
      simpa [findPlayer, List.find?_cons, beq_iff_eq, hne] using ih hw.2 hp'

lemma pruneDestroyed_not_mem (world : List PlayerObs) (s : List Nat) (p : PlayerObs)
    (hw : (world.map PlayerObs.pid).Nodup) (hp : p ∈ world) (hd : p.destroyed = true) :
    p.pid ∉ pruneDestroyed world s := by
  intro hmem
  have := (List.mem_filter.1 hmem).2
  rw [findPlayer_eq world p hw hp] at this
  simp [hd] at this

lemma notin_game_pids (world : List PlayerObs) (p : PlayerObs)
    (hw : (world.map PlayerObs.pid).Nodup) (hp : p ∈ world) (hg : p.inGame = false) :
    p.pid ∉ (world.filter (fun q => q.inGame)).map PlayerObs.pid := by
  intro hmem
  obtain ⟨q, hq, hqp⟩ := List.mem_map.1 hmem
  obtain ⟨hqw, hqg⟩ := List.mem_filter.1 hq
  have : q = p := List.inj_on_of_nodup_map hw hqw hp hqp
  rw [this] at hqg
  rw [hg] at hqg
  cases hqg

/-! ## Supporting lemmas: the position-update throttle -/

lemma update_dropped (s : PosState) (now : ℤ) (pos : PosUpdate)
    (h : now - s.positionDeltaTime < 50) :
    updatePositionForOthers s now pos = (s, none) := by
  simp [updatePositionForOthers, if_pos h]

lemma tagA_pdt (pos : PosUpdate) (r : List Char × PosState) :
    (tagA pos r).2.positionDeltaTime = r.2.positionDeltaTime := by
  rw [tagA]; split_ifs <;> rfl

lemma tagB_pdt (pos : PosUpdate) (r : List Char × PosState) :
    (tagB pos r).2.positionDeltaTime = r.2.positionDeltaTime := by
  rw [tagB]; split_ifs <;> rfl

lemma tagC_pdt (pos : PosUpdate) (r : List Char × PosState) :
    (tagC pos r).2.positionDeltaTime = r.2.positionDeltaTime := by
  rw [tagC]; split_ifs <;> rfl

lemma tagF_pdt (pos : PosUpdate) (r : List Char × PosState) :
    (tagF pos r).2.positionDeltaTime = r.2.positionDeltaTime := by
  rw [tagF]; split_ifs <;> rfl

lemma tagPitch_pdt (pos : PosUpdate) (r : List Char × PosState) :
    (tagPitch pos r).2.positionDeltaTime = r.2.positionDeltaTime := by
  rw [tagPitch]; split_ifs <;> rfl

lemma runTags_pdt (s : PosState) (now : ℤ) (pos : PosUpdate) :
    (runTags s now pos).2.positionDeltaTime = now := by
  rw [runTags, tagPitch_pdt, tagF_pdt, tagC_pdt, tagB_pdt, tagA_pdt]

lemma update_pdt (s : PosState) (now : ℤ) (pos : PosUpdate)
    (h : ¬(now - s.positionDeltaTime < 50)) :
    (updatePositionForOthers s now pos).1.positionDeltaTime = now := by
  rw [updatePositionForOthers, if_neg h]
  split_ifs <;> simp [runTags_pdt]

lemma runTags_eq (s : PosState) (now : ℤ) (pos : PosUpdate) :
    runTags s now pos =
      ((if pos.p0 ≠ 0 ∧ s.posX ≠ pos.p0 then ['A'] else []) ++
       (if pos.p1 ≠ 0 ∧ s.posY ≠ pos.p1 then ['B'] else []) ++
       (if pos.p2 ≠ 0 ∧ s.posZ ≠ pos.p2 then ['C'] else []) ++
       (if pos.p3 ≠ 0 ∧ s.rotZ ≠ pos.p3 then ['F'] else []),
       { positionDeltaTime := now,
         posX := if pos.p0 ≠ 0 ∧ s.posX ≠ pos.p0 then pos.p0 else s.posX,
         posY := if pos.p1 ≠ 0 ∧ s.posY ≠ pos.p1 then pos.p1 else s.posY,
         posZ := if pos.p2 ≠ 0 ∧ s.posZ ≠ pos.p2 then pos.p2 else s.posZ,
         rotZ := if pos.p3 ≠ 0 ∧ s.rotZ ≠ pos.p3 then pos.p3 else s.rotZ,
         rotX := s.rotX,
         camRotX := if pos.p4 ≠ 0 ∧ s.rotX ≠ pos.p4 then pos.p4 else s.camRotX }) := by
  by_cases h0 : pos.p0 ≠ 0 ∧ s.posX ≠ pos.p0 <;>
  by_cases h1 : pos.p1 ≠ 0 ∧ s.posY ≠ pos.p1 <;>
  by_cases h2 : pos.p2 ≠ 0 ∧ s.posZ ≠ pos.p2 <;>
  by_cases h3 : pos.p3 ≠ 0 ∧ s.rotZ ≠ pos.p3 <;>
  by_cases h4 : pos.p4 ≠ 0 ∧ s.rotX ≠ pos.p4 <;>
    simp [runTags, tagA, tagB, tagC, tagF, tagPitch, h0, h1, h2, h3, h4]

lemma update_accepted (s : PosState) (now : ℤ) (pos : PosUpdate)
    (h : ¬(now - s.positionDeltaTime < 50)) :
    (updatePositionForOthers s now pos).1 = (runTags s now pos).2 ∧
    broadcastTags (updatePositionForOthers s now pos).2 = (runTags s now pos).1 := by
  rw [updatePositionForOthers, if_neg h]
  split_ifs with hr
  · simp [broadcastTags]
  · simp only [ne_eq, not_not] at hr
    simp [broadcastTags, hr]

lemma mem_ite_singleton (c : Prop) [Decidable c] (a x : Char) :
    a ∈ (if c then [x] else ([] : List Char)) ↔ c ∧ a = x := by
  split_ifs with h <;> simp [h]

lemma runUpdates_gap (us : List (ℤ × PosUpdate)) (s : PosState) :
    (∀ t ∈ ((runUpdates s us).2).map Prod.fst, s.positionDeltaTime + 50 ≤ t) ∧
    List.Chain' (fun a b => a + 50 ≤ b) (((runUpdates s us).2).map Prod.fst) := by
  induction us generalizing s with
  | nil => simp [runUpdates]
  | cons tu rest ih =>
    obtain ⟨t, u⟩ := tu
    by_cases h : t - s.positionDeltaTime < 50
    · rw [runUpdates]
      simp only [update_dropped s t u h]
      exact ih s
    · have hpdt : (updatePositionForOthers s t u).1.positionDeltaTime = t := update_pdt s t u h
      have ht : s.positionDeltaTime + 50 ≤ t := by omega
      obtain ⟨ih1, ih2⟩ := ih (updatePositionForOthers s t u).1
      rw [hpdt] at ih1
      cases hb : (updatePositionForOthers s t u).2 with
      | none =>
        rw [runUpdates]
        simp only [hb]
        refine ⟨fun t' ht' => by have := ih1 t' ht'; omega, ih2⟩
      | some m =>
        rw [runUpdates]
        simp only [hb, List.map_cons]
        refine ⟨?_, ?_⟩
        · intro t' ht'
          rcases List.mem_cons.1 ht' with rfl | ht''
          · exact ht
          · have := ih1 t' ht''; omega
        · exact List.chain'_cons'.2 ⟨fun b hb' => ih1 b (List.mem_of_mem_head? hb'), ih2⟩

/-! ## Supporting lemmas: net-id counters -/

lemma assignedNetIds_brick_eq (c0 n : Nat) :
    assignedNetIds brickNetIdStep c0 n = List.range' (c0 + 1) n := by
  induction n generalizing c0 with
  | zero => rfl
  | succ n ih => simp [assignedNetIds, brickNetIdStep, List.range'_succ, ih]

lemma assignedNetIds_player_eq (c0 n : Nat) :
    assignedNetIds playerNetIdStep c0 n = List.range' (c0 + 1) n :=
  assignedNetIds_brick_eq c0 n

lemma assignedNetIds_sound_eq (c0 n : Nat) :
    assignedNetIds soundEmitterNetIdStep c0 n = List.range' (c0 + 1) n :=
  assignedNetIds_brick_eq c0 n

/-! ## Claim C1 -/

/-- Claim C1, counterexample: the `touching` event is not edge-triggered.  A
brick at the origin with scale (1,1,1) and an alive in-game actor standing on
it overlap continuously across two consecutive detector cycles, yet `touching`
is emitted in both cycles — more than once within one continuous overlap
interval, refuting "emitted exactly once, on the transition from not-touching
to touching". -/
theorem touching_not_edge_triggered_cex :
    (runCycles ⟨⟨0, 0, 0⟩, ⟨1, 1, 1⟩⟩ []
        [[⟨1, ⟨0, 0, 0⟩, ⟨1, 1, 1⟩, true, false, true⟩],
         [⟨1, ⟨0, 0, 0⟩, ⟨1, 1, 1⟩, true, false, true⟩]]).2 =
      [[TouchEvent.touching 1], [TouchEvent.touching 1]] ∧
    touchedCheck ⟨⟨0, 0, 0⟩, ⟨1, 1, 1⟩⟩ ⟨1, ⟨0, 0, 0⟩, ⟨1, 1, 1⟩, true, false, true⟩ = true := by
  have ht : touchedCheck ⟨⟨0, 0, 0⟩, ⟨1, 1, 1⟩⟩
      ⟨1, ⟨0, 0, 0⟩, ⟨1, 1, 1⟩, true, false, true⟩ = true := by
    norm_num [touchedCheck, qabs]
  refine ⟨?_, ht⟩
  simp +decide [runCycles, detectCycle, pruneDestroyed, findPlayer, hitDetection, hitStep,
    setAdd, ht]

/-- Claim C1, amended: for a touch-sensitive brick and an in-game actor (player
ids without duplicates, touching-set duplicate-free), one detector cycle emits
`touching` for the actor exactly once when the actor overlaps the brick and is
alive, and zero times otherwise — that is, the event fires on *every* cycle of
a continuous overlap (level-triggered, at 100 ms period), not only on the
not-touching→touching transition; and the actor is in the touching-set after
the cycle exactly when it overlapped alive. -/
theorem touching_fires_every_overlapping_cycle (b : TouchBrick) (world : List PlayerObs)
    (s : List Nat) (p : PlayerObs)
    (hin : p ∈ world.filter (fun q => q.inGame))
    (hw : (world.map PlayerObs.pid).Nodup)
    (hs : s.Nodup) :
    countEvent (TouchEvent.touching p.pid) (detectCycle b world s).2 =
      (if (touchedCheck b p && p.alive) = true then 1 else 0) ∧
    (p.pid ∈ (detectCycle b world s).1 ↔ (touchedCheck b p && p.alive) = true) := by
  have hne : ¬(world.filter (fun q => q.inGame)).isEmpty := by
    cases hfe : (world.filter (fun q => q.inGame)) with
    | nil => rw [hfe] at hin; cases hin
    | cons a l => simp [hfe]
  have hmain := hitDetection_main b (world.filter (fun q => q.inGame)) p
    (filtered_pid_nodup world hw) hin
    (pruneDestroyed world s) (pruneDestroyed_nodup world s hs)
  simp only [detectCycle, if_neg hne]
  exact ⟨hmain.1, hmain.2.2⟩

/-- Claim C1, witness: the amended theorem evaluated at a concrete overlapping
alive actor — one cycle emits `touching` once. -/
theorem touching_fires_every_overlapping_cycle_witness :
    countEvent (TouchEvent.touching 1)
      (detectCycle ⟨⟨0, 0, 0⟩, ⟨1, 1, 1⟩⟩ [⟨1, ⟨0, 0, 0⟩, ⟨1, 1, 1⟩, true, false, true⟩] []).2
      = 1 := by
  have h := touching_fires_every_overlapping_cycle ⟨⟨0, 0, 0⟩, ⟨1, 1, 1⟩⟩
    [⟨1, ⟨0, 0, 0⟩, ⟨1, 1, 1⟩, true, false, true⟩] []
    ⟨1, ⟨0, 0, 0⟩, ⟨1, 1, 1⟩, true, false, true⟩ (by decide) (by decide) (by decide)
  have ht : touchedCheck ⟨⟨0, 0, 0⟩, ⟨1, 1, 1⟩⟩
      ⟨1, ⟨0, 0, 0⟩, ⟨1, 1, 1⟩, true, false, true⟩ = true := by
    norm_num [touchedCheck, qabs]
  rw [h.1, ht]
  simp

/-! ## Claim C7 -/

/-- Claim C7, counterexample: a destroyed actor is pruned from the
touching-set silently.  The actor with id 1 sits in the brick's touching-set,
is destroyed and no longer in `Game.players`; the cycle removes it from the
set and emits no `touchingEnded` event, refuting "the touchingEnded event is
emitted exactly once … when the actor is destroyed". -/
theorem destroyed_actor_pruned_silently_cex :
    detectCycle ⟨⟨0, 0, 0⟩, ⟨1, 1, 1⟩⟩ [⟨1, ⟨0, 0, 0⟩, ⟨1, 1, 1⟩, true, true, false⟩] [1] =
      ([], []) ∧
    (⟨1, ⟨0, 0, 0⟩, ⟨1, 1, 1⟩, true, true, false⟩ : PlayerObs).destroyed = true := by
  constructor
  · simp +decide [detectCycle, pruneDestroyed, findPlayer]
  · rfl

/-- Claim C7, amended: for a world with duplicate-free player ids and a
duplicate-free touching-set, in one detector cycle (a) an in-game actor gets
`touchingEnded` exactly once when it is in the pruned touching-set and its
overlap has ended or it is no longer alive, and zero times otherwise; (b) in
that case it is removed from the touching-set in the same cycle; (c) a
destroyed actor is instead pruned from the touching-set without any event —
no `touchingEnded` fires for a destroyed actor that left the game. -/
theorem touchingEnded_once_and_silent_prune (b : TouchBrick) (world : List PlayerObs)
    (s : List Nat) (p : PlayerObs)
    (hw : (world.map PlayerObs.pid).Nodup) (hp : p ∈ world) (hs : s.Nodup) :
    (p.inGame = true →
      countEvent (TouchEvent.touchingEnded p.pid) (detectCycle b world s).2 =
        (if p.pid ∈ pruneDestroyed world s ∧ (touchedCheck b p && p.alive) = false
         then 1 else 0)) ∧
    (p.inGame = true → (touchedCheck b p && p.alive) = false →
      p.pid ∉ (detectCycle b world s).1) ∧
    (p.destroyed = true → p.pid ∉ pruneDestroyed world s) ∧
    (p.destroyed = true → p.inGame = false →
      countEvent (TouchEvent.touchingEnded p.pid) (detectCycle b world s).2 = 0) := by
  refine ⟨?_, ?_, ?_, ?_⟩
  · intro hg
    have hin : p ∈ world.filter (fun q => q.inGame) := List.mem_filter.2 ⟨hp, hg⟩
    have hne : ¬(world.filter (fun q => q.inGame)).isEmpty := by
      cases hfe : (world.filter (fun q => q.inGame)) with
      | nil => rw [hfe] at hin; cases hin
      | cons a l => simp [hfe]
    have hmain := hitDetection_main b (world.filter (fun q => q.inGame)) p
      (filtered_pid_nodup world hw) hin
      (pruneDestroyed world s) (pruneDestroyed_nodup world s hs)
    simp only [detectCycle, if_neg hne]
    exact hmain.2.1
  · intro hg hfalse
    have hin : p ∈ world.filter (fun q => q.inGame) := List.mem_filter.2 ⟨hp, hg⟩
    have hne : ¬(world.filter (fun q => q.inGame)).isEmpty := by
      cases hfe : (world.filter (fun q => q.inGame)) with
      | nil => rw [hfe] at hin; cases hin
      | cons a l => simp [hfe]
    have hmain := hitDetection_main b (world.filter (fun q => q.inGame)) p
      (filtered_pid_nodup world hw) hin
      (pruneDestroyed world s) (pruneDestroyed_nodup world s hs)
    simp only [detectCycle, if_neg hne]
    intro hcon
    rw [hmain.2.2] at hcon
    rw [hcon] at hfalse
    cases hfalse
  · intro hd
    exact pruneDestroyed_not_mem world s p hw hp hd
  · intro hd hg
    by_cases hne : (world.filter (fun q => q.inGame)).isEmpty
    · simp only [detectCycle, hne, if_true]
      rfl
    · simp only [detectCycle, hne, if_false]
      exact (hitDetection_notin b (world.filter (fun q => q.inGame)) p.pid
        (notin_game_pids world p hw hp hg) (pruneDestroyed world s)).2.1

/-- Claim C7, witness: the amended theorem at a concrete actor that is in the
touching-set but no longer overlapping — `touchingEnded` fires exactly once. -/
theorem touchingEnded_once_and_silent_prune_witness :
    countEvent (TouchEvent.touchingEnded 1)
      (detectCycle ⟨⟨10, 10, 10⟩, ⟨1, 1, 1⟩⟩
        [⟨1, ⟨100, 100, 100⟩, ⟨1, 1, 1⟩, true, false, true⟩] [1]).2 = 1 := by
  have h := touchingEnded_once_and_silent_prune ⟨⟨10, 10, 10⟩, ⟨1, 1, 1⟩⟩
    [⟨1, ⟨100, 100, 100⟩, ⟨1, 1, 1⟩, true, false, true⟩] [1]
    ⟨1, ⟨100, 100, 100⟩, ⟨1, 1, 1⟩, true, false, true⟩ (by decide) (by decide) (by decide)
  have ht : touchedCheck ⟨⟨10, 10, 10⟩, ⟨1, 1, 1⟩⟩
      ⟨1, ⟨100, 100, 100⟩, ⟨1, 1, 1⟩, true, false, true⟩ = false := by
    norm_num [touchedCheck, qabs]
  rw [h.1 rfl]
  rw [if_pos]
  refine ⟨?_, ?_⟩
  · simp +decide [pruneDestroyed, findPlayer]
  · rw [ht]; rfl

/-! ## Claim C2 -/

/-- Claim C2, counterexample: within one 50 ms window the broadcast carries the
*first* accepted value, not the last one set.  From a session whose stored x is
5 and whose last accepted time is 0, updates x=1 at t=100 and x=2 at t=110
produce exactly one broadcast, at t=100 with x=1; the later value 2 is dropped
entirely (never stored, never broadcast), refuting "the broadcast that does go
out reflects the last position value set within the window". -/
theorem position_throttle_first_value_wins_cex :
    runUpdates ⟨0, 5, 0, 0, 0, 0, 0⟩ [(100, ⟨1, 0, 0, 0, 0⟩), (110, ⟨2, 0, 0, 0, 0⟩)] =
      (⟨100, 1, 0, 0, 0, 0, 0⟩, [(100, ⟨['A'], 1, 0, 0, 0⟩)]) ∧ (1 : ℚ) ≠ 2 := by
  decide

/-- Claim C2, amended: an update arriving less than 50 ms after the last
accepted one is dropped entirely — the state is unchanged and nothing is
broadcast — and in any run the broadcast times are at least 50 ms apart (hence
at most one broadcast per 50 ms window); the value a window's broadcast
carries is therefore the first accepted one of the window, not the last set. -/
theorem position_throttle_drops_fast_updates (s : PosState) (now : ℤ) (pos : PosUpdate)
    (us : List (ℤ × PosUpdate)) (h : now - s.positionDeltaTime < 50) :
    updatePositionForOthers s now pos = (s, none) ∧
    List.Chain' (fun a b => a + 50 ≤ b) (((runUpdates s us).2).map Prod.fst) :=
  ⟨update_dropped s now pos h, (runUpdates_gap us s).2⟩

/-- Claim C2, witness: the amended theorem at a concrete dropped update. -/
theorem position_throttle_drops_fast_updates_witness :
    updatePositionForOthers ⟨0, 5, 0, 0, 0, 0, 0⟩ 10 ⟨1, 0, 0, 0, 0⟩ =
      (⟨0, 5, 0, 0, 0, 0, 0⟩, none) :=
  (position_throttle_drops_fast_updates ⟨0, 5, 0, 0, 0, 0, 0⟩ 10 ⟨1, 0, 0, 0, 0⟩ []
    (by decide)).1

/-! ## Claim C6 -/

/-- Claim C6, counterexample: a camera-pitch change is applied but never
tagged or broadcast.  From the all-zero state, the accepted update
(0,0,0,0,5) changes the stored camera pitch from 0 to 5, yet the update
produces no broadcast at all (empty tag set), refuting "the encoded broadcast
carries a compact tag set naming exactly the members of {x, y, z, yaw,
pitch-of-camera} whose values changed". -/
theorem camera_pitch_untagged_cex :
    updatePositionForOthers ⟨0, 0, 0, 0, 0, 0, 0⟩ 100 ⟨0, 0, 0, 0, 5⟩ =
      (⟨100, 0, 0, 0, 0, 0, 5⟩, none) ∧ (5 : ℚ) ≠ 0 := by
  decide

/-- Claim C6, amended: for an accepted update the tag set names exactly those
of {x ↦ A, y ↦ B, z ↦ C, yaw ↦ F} whose incoming value is nonzero and differs
from the stored value — unchanged (or zero) fields are omitted, never
zero-filled — the tag set never contains anything besides A, B, C, F (camera
pitch in particular is never tagged), and the camera pitch is stored exactly
when nonzero and different from `rotation.x`. -/
theorem position_tags_exactly_nonzero_changed (s : PosState) (now : ℤ) (pos : PosUpdate)
    (h : 50 ≤ now - s.positionDeltaTime) :
    ('A' ∈ broadcastTags (updatePositionForOthers s now pos).2 ↔
      pos.p0 ≠ 0 ∧ s.posX ≠ pos.p0) ∧
    ('B' ∈ broadcastTags (updatePositionForOthers s now pos).2 ↔
      pos.p1 ≠ 0 ∧ s.posY ≠ pos.p1) ∧
    ('C' ∈ broadcastTags (updatePositionForOthers s now pos).2 ↔
      pos.p2 ≠ 0 ∧ s.posZ ≠ pos.p2) ∧
    ('F' ∈ broadcastTags (updatePositionForOthers s now pos).2 ↔
      pos.p3 ≠ 0 ∧ s.rotZ ≠ pos.p3) ∧
    (∀ c ∈ broadcastTags (updatePositionForOthers s now pos).2, c ∈ ['A', 'B', 'C', 'F']) ∧
    ((updatePositionForOthers s now pos).1.camRotX =
      if pos.p4 ≠ 0 ∧ s.rotX ≠ pos.p4 then pos.p4 else s.camRotX) := by
  have hn : ¬(now - s.positionDeltaTime < 50) := by omega
  obtain ⟨hst, htags⟩ := update_accepted s now pos hn
  rw [hst, htags, runTags_eq]
  refine ⟨?_, ?_, ?_, ?_, ?_, ?_⟩
  · simp +decide [mem_ite_singleton]
  · simp +decide [mem_ite_singleton]
  · simp +decide [mem_ite_singleton]
  · simp +decide [mem_ite_singleton]
  · intro c hc
    simp only [List.mem_append, mem_ite_singleton] at hc
    rcases hc with ((⟨-, rfl⟩ | ⟨-, rfl⟩) | ⟨-, rfl⟩) | ⟨-, rfl⟩ <;> decide
  · rfl

/-- Claim C6, witness: the amended theorem at a concrete accepted update with
a changed nonzero x — tag A is present. -/
theorem position_tags_exactly_nonzero_changed_witness :
    'A' ∈ broadcastTags
      ((updatePositionForOthers ⟨0, 0, 0, 0, 0, 0, 0⟩ 100 ⟨1, 0, 0, 0, 0⟩).2) :=
  (position_tags_exactly_nonzero_changed ⟨0, 0, 0, 0, 0, 0, 0⟩ 100 ⟨1, 0, 0, 0, 0⟩
    (by decide)).1.mpr (by norm_num)

/-! ## Claim C9 -/

/-- Claim C9: a coordinate whose incoming value is exactly 0 is treated as
absent — for each of x, y, z, yaw and camera pitch, a zero incoming value
leaves the stored value unchanged (even if it was nonzero) and contributes no
change tag to the broadcast. -/
theorem zero_coordinate_treated_absent (s : PosState) (now : ℤ) (pos : PosUpdate) :
    (pos.p0 = 0 → (updatePositionForOthers s now pos).1.posX = s.posX ∧
      'A' ∉ broadcastTags (updatePositionForOthers s now pos).2) ∧
    (pos.p1 = 0 → (updatePositionForOthers s now pos).1.posY = s.posY ∧
      'B' ∉ broadcastTags (updatePositionForOthers s now pos).2) ∧
    (pos.p2 = 0 → (updatePositionForOthers s now pos).1.posZ = s.posZ ∧
      'C' ∉ broadcastTags (updatePositionForOthers s now pos).2) ∧
    (pos.p3 = 0 → (updatePositionForOthers s now pos).1.rotZ = s.rotZ ∧
      'F' ∉ broadcastTags (updatePositionForOthers s now pos).2) ∧
    (pos.p4 = 0 → (updatePositionForOthers s now pos).1.camRotX = s.camRotX) := by
  by_cases h : now - s.positionDeltaTime < 50
  · simp [update_dropped s now pos h, broadcastTags]
  · obtain ⟨hst, htags⟩ := update_accepted s now pos h
    rw [hst, htags, runTags_eq]
    refine ⟨?_, ?_, ?_, ?_, ?_⟩ <;> intro hz <;>
      simp +decide [hz, mem_ite_singleton]

/-- Claim C9, witness: an update carrying x = 0 over a stored x of 7 leaves 7
in place and emits no A tag. -/
theorem zero_coordinate_treated_absent_witness :
    (updatePositionForOthers ⟨0, 7, 0, 0, 0, 0, 0⟩ 100 ⟨0, 2, 0, 0, 0⟩).1.posX = 7 ∧
    'A' ∉ broadcastTags ((updatePositionForOthers ⟨0, 7, 0, 0, 0, 0, 0⟩ 100 ⟨0, 2, 0, 0, 0⟩).2) :=
  (zero_coordinate_treated_absent ⟨0, 7, 0, 0, 0, 0, 0⟩ 100 ⟨0, 2, 0, 0, 0⟩).1 rfl

/-! ## Claim C10 -/

/-- Claim C10: at most one tool is equipped at a time (the equipped tool is a
single nullable reference); `equipTool` on the currently equipped tool
unequips it leaving none equipped; `equipTool` while a different tool is
equipped first emits `unequipped` for the old one and then `equipped` for the
new one; and `equipTool` on a tool not in the inventory appends it to the
inventory first. -/
theorem equipTool_single_equipped_semantics (s : ToolState) (t : Nat) :
    (s.toolEquipped = some t →
      (equipTool s t).1.toolEquipped = none ∧ (equipTool s t).2 = [ToolEvent.unequipped t]) ∧
    (∀ c, s.toolEquipped = some c → c ≠ t →
      (equipTool s t).1.toolEquipped = some t ∧
      (equipTool s t).2 = [ToolEvent.unequipped c, ToolEvent.equipped t]) ∧
    (s.toolEquipped = none →
      (equipTool s t).1.toolEquipped = some t ∧ (equipTool s t).2 = [ToolEvent.equipped t]) ∧
    (t ∈ (equipTool s t).1.inventory) ∧
    ((equipTool s t).1.inventory =
      if t ∈ s.inventory then s.inventory else s.inventory ++ [t]) := by
  refine ⟨?_, ?_, ?_, ?_, ?_⟩
  · intro h
    by_cases hm : t ∈ s.inventory <;> simp [equipTool, unequipTool, hm, h]
  · intro c h hne
    by_cases hm : t ∈ s.inventory <;>
      simp [equipTool, unequipTool, hm, h, hne, Ne.symm hne]
  · intro h
    by_cases hm : t ∈ s.inventory <;> simp [equipTool, hm, h]
  · by_cases hm : t ∈ s.inventory <;>
      rcases h : s.toolEquipped with _ | c <;>
        simp [equipTool, unequipTool, hm, h] <;>
          by_cases hct : c = t <;> simp [hct, hm]
  · by_cases hm : t ∈ s.inventory <;>
      rcases h : s.toolEquipped with _ | c <;>
        simp [equipTool, unequipTool, hm, h] <;>
          by_cases hct : c = t <;> simp [hct, hm]

/-! ## Claim C4 -/

/-- Claim C4: destroying a brick or a sound emitter succeeds once — marking it
destroyed, nulling its net id, returning its periodic timers as cancelled and
removing it from its owning collection (`Game.world.bricks` for a global
brick, the owning player's `localBricks` for a local one, `Game.world.sounds`
for a sound emitter) — and destroying it a second time yields a rejected
result with the corresponding message, whatever the world then looks like. -/
theorem destroy_twice_fails_and_removes (b : DestroyableBrick) (w : WorldCollections)
    (e : DestroyableSound) (nb ns : Nat)
    (hb : b.destroyed = false) (hbn : b.netId = some nb)
    (hwb : w.bricks.Nodup) (hwl : w.localBricks.Nodup)
    (he : e.destroyed = false) (hen : e.netId = some ns) (hws : w.sounds.Nodup) :
    (∃ b' w' cb, brickDestroy b w = Except.ok (b', w', cb) ∧
      b'.destroyed = true ∧ b'.netId = none ∧ cb = b.steps ∧
      (b.isLocal = false →
        w'.bricks = w.bricks.erase nb ∧ nb ∉ w'.bricks ∧ w'.localBricks = w.localBricks) ∧
      (b.isLocal = true →
        w'.localBricks = w.localBricks.erase nb ∧ nb ∉ w'.localBricks ∧ w'.bricks = w.bricks) ∧
      (∀ w2, brickDestroy b' w2 = Except.error "Brick has already been destroyed.")) ∧
    (∃ e' w2 ce, soundDestroy e w = Except.ok (e', w2, ce) ∧
      e'.destroyed = true ∧ e'.netId = none ∧ ce = e.steps ∧
      w2.sounds = w.sounds.erase ns ∧ ns ∉ w2.sounds ∧
      (∀ w3, soundDestroy e' w3 = Except.error "Sound emitter has already been destroyed.")) := by
  have hmainb :
      brickDestroy b w = Except.ok
        ({ b with destroyed := true, netId := none, isLocal := false, hitMonitorActive := false },
          (if b.isLocal then { w with localBricks := spliceOut w.localBricks b.netId }
            else { w with bricks := spliceOut w.bricks b.netId }),
          b.steps) := by
    rw [brickDestroy, if_neg (by simp [hb])]
  have hmains :
      soundDestroy e w = Except.ok
        ({ e with destroyed := true, netId := none },
          { w with sounds := spliceOut w.sounds e.netId }, e.steps) := by
    rw [soundDestroy, if_neg (by simp [he])]
  constructor
  · refine ⟨_, _, _, hmainb, rfl, rfl, rfl, ?_, ?_, ?_⟩
    · intro hl
      simp [hl, spliceOut, hbn, hwb.not_mem_erase]
    · intro hl
      simp [hl, spliceOut, hbn, hwl.not_mem_erase]
    · intro w2
      rw [brickDestroy]
      simp
  · refine ⟨_, _, _, hmains, rfl, rfl, rfl, ?_, ?_, ?_⟩
    · simp [spliceOut, hen]
    · simp [spliceOut, hen, hws.not_mem_erase]
    · intro w3
      rw [soundDestroy]
      simp

/-- Claim C4, witness: a concrete global brick (net id 7, two timers) in a
world holding bricks 5 and 7, and a concrete sound emitter (net id 9): the
first destroy succeeds and removes them, the second destroy is rejected. -/
theorem destroy_twice_fails_and_removes_witness :
    (∃ b' w' cb,
      brickDestroy ⟨false, some 7, false, [3, 4], true⟩ ⟨[5, 7], [], [9]⟩ =
        Except.ok (b', w', cb) ∧
      b'.destroyed = true ∧
      (∀ w2, brickDestroy b' w2 = Except.error "Brick has already been destroyed.")) ∧
    (∃ e' w2 ce,
      soundDestroy ⟨false, some 9, [6]⟩ ⟨[5, 7], [], [9]⟩ = Except.ok (e', w2, ce) ∧
      e'.destroyed = true ∧
      (∀ w3, soundDestroy e' w3 = Except.error "Sound emitter has already been destroyed.")) := by
  obtain ⟨⟨b', w', cb, h1, h2, h3, h4, h5, h6, h7⟩, ⟨e', w2, ce, g1, g2, g3, g4, g5, g6, g7⟩⟩ :=
    destroy_twice_fails_and_removes ⟨false, some 7, false, [3, 4], true⟩ ⟨[5, 7], [], [9]⟩
      ⟨false, some 9, [6]⟩ 7 9 rfl rfl (by decide) (by decide) rfl rfl (by decide)
  exact ⟨⟨b', w', cb, h1, h2, h7⟩, ⟨e', w2, ce, g1, g2, g7⟩⟩

/-! ## Claim C8 -/

/-- Claim C8: each of the three per-class counters (`Brick.brickId`,
`Player.playerId`, `SoundEmitter.soundEmitterId`) assigns, over any sequence
of constructor calls, strictly increasing net ids — hence every net id differs
from the id of every entity of the same kind constructed earlier in the
process, each exceeds the starting counter value, and no id is ever reused. -/
theorem netIds_strictly_increasing_unique (c0 n : Nat) :
    (List.Pairwise (· < ·) (assignedNetIds brickNetIdStep c0 n) ∧
      (assignedNetIds brickNetIdStep c0 n).Nodup ∧
      (∀ k ∈ assignedNetIds brickNetIdStep c0 n, c0 < k)) ∧
    (List.Pairwise (· < ·) (assignedNetIds playerNetIdStep c0 n) ∧
      (assignedNetIds playerNetIdStep c0 n).Nodup) ∧
    (List.Pairwise (· < ·) (assignedNetIds soundEmitterNetIdStep c0 n) ∧
      (assignedNetIds soundEmitterNetIdStep c0 n).Nodup) := by
  rw [assignedNetIds_brick_eq, assignedNetIds_player_eq, assignedNetIds_sound_eq]
  refine ⟨⟨?_, ?_, ?_⟩, ⟨?_, ?_⟩, ⟨?_, ?_⟩⟩ <;>
    first
      | exact List.pairwise_lt_range' _ _
      | exact List.nodup_range' _ _
      | intro k hk
        exact lt_of_lt_of_le (Nat.lt_succ_self c0) (List.mem_range'_1.1 hk).1

/-! ## Claim C5 -/

/-- Claim C5, counterexample: the serialized form does not omit every
default-valued field, and not every non-default field survives the round trip.
A brick that only enables lighting is encoded with `lightColor = "#000000"`
present even though that value equals the default brick's; and a brick with
visibility 2 (non-default, the default is 1) decodes back to visibility 1. -/
theorem serialize_keeps_default_light_fields_cex :
    ((serializeBrick { DEFAULT_BRICK with lightEnabled := true }).lightColor =
        some "#000000" ∧
      DEFAULT_BRICK.lightColor = "#000000") ∧
    ((deserializeBrick (serializeBrick { DEFAULT_BRICK with visibility := 2 })).visibility = 1 ∧
      ({ DEFAULT_BRICK with visibility := 2 } : Brick).visibility = 2 ∧ (2 : ℚ) ≠ 1) := by
  decide

/-- Claim C5, amended: the serialize/deserialize round trip reproduces
position, scale, color, collision, name, rotation, model, lightEnabled and
clickable exactly; visibility is reproduced exactly when below 1 and collapses
to 1 otherwise (it is encoded iff `< 1`); lightColor and lightRange are
reproduced when `lightEnabled` (and reset to defaults otherwise), likewise
clickDistance when `clickable`; the encoding omits exactly the default value
for position, scale, color, rotation, name, model and collision, while
lightColor, lightRange and clickDistance are carried whenever their enabling
flag is set, even when default-valued. -/
theorem serialize_roundtrip_characterization (b : Brick) :
    ((deserializeBrick (serializeBrick b)).position = b.position) ∧
    ((deserializeBrick (serializeBrick b)).scale = b.scale) ∧
    ((deserializeBrick (serializeBrick b)).color = b.color) ∧
    ((deserializeBrick (serializeBrick b)).collision = b.collision) ∧
    ((deserializeBrick (serializeBrick b)).name = b.name) ∧
    ((deserializeBrick (serializeBrick b)).rotation = b.rotation) ∧
    ((deserializeBrick (serializeBrick b)).model = b.model) ∧
    ((deserializeBrick (serializeBrick b)).lightEnabled = b.lightEnabled) ∧
    ((deserializeBrick (serializeBrick b)).clickable = b.clickable) ∧
    ((deserializeBrick (serializeBrick b)).visibility =
      if b.visibility < 1 then b.visibility else 1) ∧
    ((deserializeBrick (serializeBrick b)).lightColor =
      if b.lightEnabled then b.lightColor else "#000000") ∧
    ((deserializeBrick (serializeBrick b)).lightRange =
      if b.lightEnabled then b.lightRange else 5) ∧
    ((deserializeBrick (serializeBrick b)).clickDistance =
      if b.clickable then b.clickDistance else 50) ∧
    ((serializeBrick b).position = none ↔ b.position = DEFAULT_BRICK.position) ∧
    ((serializeBrick b).scale = none ↔ b.scale = DEFAULT_BRICK.scale) ∧
    ((serializeBrick b).color = none ↔ b.color = DEFAULT_BRICK.color) ∧
    ((serializeBrick b).rotation = none ↔ b.rotation = DEFAULT_BRICK.rotation) ∧
    ((serializeBrick b).name = none ↔ b.name = DEFAULT_BRICK.name) ∧
    ((serializeBrick b).model = none ↔ b.model = DEFAULT_BRICK.model) ∧
    ((serializeBrick b).collision = none ↔ b.collision = DEFAULT_BRICK.collision) ∧
    ((serializeBrick b).visibility = none ↔ ¬b.visibility < 1) ∧
    ((serializeBrick b).lightColor = if b.lightEnabled then some b.lightColor else none) ∧
    ((serializeBrick b).lightRange = if b.lightEnabled then some b.lightRange else none) ∧
    ((serializeBrick b).clickDistance = if b.clickable then some b.clickDistance else none) := by
  refine ⟨?_, ?_, ?_, ?_, ?_, ?_, ?_, ?_, ?_, ?_, ?_, ?_, ?_, ?_, ?_, ?_, ?_, ?_, ?_, ?_, ?_,
    ?_, ?_, ?_⟩
  · by_cases h : b.position = DEFAULT_BRICK.position <;>
      simp only [DEFAULT_BRICK] at h <;>
      simp [serializeBrick, deserializeBrick, DEFAULT_BRICK, h]
  · by_cases h : b.scale = DEFAULT_BRICK.scale <;>
      simp only [DEFAULT_BRICK] at h <;>
      simp [serializeBrick, deserializeBrick, DEFAULT_BRICK, h]
  · by_cases h : b.color = DEFAULT_BRICK.color <;>
      simp only [DEFAULT_BRICK] at h <;>
      simp [serializeBrick, deserializeBrick, DEFAULT_BRICK, h]
  · by_cases h : b.collision <;> simp [serializeBrick, deserializeBrick, DEFAULT_BRICK, h]
  · by_cases h : b.name = "" <;> simp [serializeBrick, deserializeBrick, DEFAULT_BRICK, h]
  · by_cases h : b.rotation = DEFAULT_BRICK.rotation <;>
      simp only [DEFAULT_BRICK] at h <;>
      simp [serializeBrick, deserializeBrick, DEFAULT_BRICK, h]
  · by_cases h : b.model = 0 <;> simp [serializeBrick, deserializeBrick, DEFAULT_BRICK, h]
  · by_cases h : b.lightEnabled <;> simp [serializeBrick, deserializeBrick, DEFAULT_BRICK, h]
  · by_cases h : b.clickable <;> simp [serializeBrick, deserializeBrick, DEFAULT_BRICK, h]
  · by_cases h : b.visibility < 1 <;> simp [serializeBrick, deserializeBrick, DEFAULT_BRICK, h]
  · by_cases h : b.lightEnabled <;> simp [serializeBrick, deserializeBrick, DEFAULT_BRICK, h]
  · by_cases h : b.lightEnabled <;> simp [serializeBrick, deserializeBrick, DEFAULT_BRICK, h]
  · by_cases h : b.clickable <;> simp [serializeBrick, deserializeBrick, DEFAULT_BRICK, h]
  · by_cases h : b.position = DEFAULT_BRICK.position <;> simp [serializeBrick, DEFAULT_BRICK, h]
  · by_cases h : b.scale = DEFAULT_BRICK.scale <;> simp [serializeBrick, DEFAULT_BRICK, h]
  · by_cases h : b.color = DEFAULT_BRICK.color <;> simp [serializeBrick, DEFAULT_BRICK, h]
  · by_cases h : b.rotation = DEFAULT_BRICK.rotation <;> simp [serializeBrick, DEFAULT_BRICK, h]
  · by_cases h : b.name = "" <;> simp [serializeBrick, DEFAULT_BRICK, h]
  · by_cases h : b.model = 0 <;> simp [serializeBrick, DEFAULT_BRICK, h]
  · by_cases h : b.collision <;> simp [serializeBrick, DEFAULT_BRICK, h]
  · by_cases h : b.visibility < 1 <;> simp [serializeBrick, DEFAULT_BRICK, h]
  · by_cases h : b.lightEnabled <;> simp [serializeBrick, DEFAULT_BRICK, h]
  · by_cases h : b.lightEnabled <;> simp [serializeBrick, DEFAULT_BRICK, h]
  · by_cases h : b.clickable <;> simp [serializeBrick, DEFAULT_BRICK, h]

/-! ## Claim C3 -/

/-- Claim C3: loading a file whose first line is the exact format signature
and whose only other line is the brick line `0 0 0 5 5 5 255 255 255 1`
yields exactly one brick, at position (0,0,0), scale (5,5,5), white color
(`#ffffff`) and visibility 1, with empty team, tool and spawn lists; and for
any file whose first (trimmed) line differs from the signature, the loader
aborts with no entities at all. -/
theorem loadBrk_good_file_and_header_abort :
    loadBrk "B R I C K  W O R K S H O P  V0.2.0.0\n0 0 0 5 5 5 255 255 255 1" =
      some ⟨[], [],
        [{ position := ⟨0, 0, 0⟩, scale := ⟨5, 5, 5⟩, color := "#ffffff", visibility := 1 }],
        {}, []⟩ ∧
    (∀ file l ls, jsSplit '\n' file = l :: ls → jsTrim l ≠ brkSignature →
      loadBrk file = none) := by
  constructor
  · have hsplit : jsSplit '\n' "B R I C K  W O R K S H O P  V0.2.0.0\n0 0 0 5 5 5 255 255 255 1" =
        ["B R I C K  W O R K S H O P  V0.2.0.0", "0 0 0 5 5 5 255 255 255 1"] := by decide
    have hdata : jsSplit ' ' (jsTrim "0 0 0 5 5 5 255 255 255 1") =
        ["0", "0", "0", "5", "5", "5", "255", "255", "255", "1"] := by decide
    have h255 : jsNumber "255" = 255 := by
      have h : parseDigits ['2', '5', '5'] 0 = some 255 := by decide
      norm_num +decide [jsNumber, jsNumberList, jsSplitAux, isJsSpace, h]
    have h0 : jsNumber "0" = 0 := by
      norm_num +decide [jsNumber, jsNumberList, jsSplitAux, isJsSpace, parseDigits]
    have h5 : jsNumber "5" = 5 := by
      have h : parseDigits ['5'] 0 = some 5 := by decide
      norm_num +decide [jsNumber, jsNumberList, jsSplitAux, isJsSpace, h]
    have h1 : jsNumber "1" = 1 := by
      have h : parseDigits ['1'] 0 = some 1 := by decide
      norm_num +decide [jsNumber, jsNumberList, jsSplitAux, isJsSpace, h]
    have hcrgb : convertRGB "255" "255" "255" = (1, 1, 1) := by
      norm_num +decide [convertRGB, h255]
    have hhex : rgbToHex 1 1 1 = "#ffffff" := by
      have e1 : ((1 : ℚ) * 255) = 255 := by norm_num
      have e2 : (255 : ℚ).num = 255 := by norm_num
      have e3 : (255 : ℚ).den = 1 := by norm_num
      have e4 : jsRound 255 = 255 := by rw [jsRound, e2, e3]; decide
      norm_num +decide [rgbToHex, hex2, e1, e4]
    rw [loadBrk, hsplit]
    simp +decide [loadBrkLines, processLine, brkGeneric, brkAddBrick, hdata, hcrgb, hhex,
      h0, h5, h1]
  · intro file l ls hsplit hne
    rw [loadBrk, hsplit]
    simp [loadBrkLines, processLine, hne]

end NodeHill
